import Mathlib

/-!
Shallow embedding of the PhishGuard server (`server.js` and its passport
configuration module) for checking the natural-language specification.

The Node/Express + Mongoose application is modelled as pure functions over an
explicit database state `DB`.  MongoDB `findOne` becomes `List.find?` (first
match in insertion order), `save` of a new document appends to the list, and
`save` of a fetched-and-mutated document replaces the stored record with the
same internal id.  External collaborators are modelled as parameters:
the Flask predictor is an oracle mapping the attempt number to an outcome,
and the outcome of `newCheck.save()` is a boolean in the handler environment.
-/

namespace PhishGuard

/-- A `User` document (`models/Users` schema, as used by `server.js` and the
passport module): `email`, bcrypt-hashed `password`, `googleId` and `name`
are all optional at the Mongoose level; `uid` models the Mongo `_id`. -/
structure UserRec where
  uid : Nat
  email : Option String
  password : Option String
  googleId : Option String
  name : Option String
deriving Repr, DecidableEq

/-- A `UrlCheck` document as written by the scan handler
(`server.js` line 185: fields `url`, `prediction`, `confidence`, `user`;
`checkedAt` defaults to the creation time).  Note the owner field is named
`user`, and the schema has no `userId` path. -/
structure ScanRec where
  url : String
  prediction : String
  confidence : Nat
  user : Nat
  checkedAt : Nat
deriving Repr, DecidableEq

/-- The persistent state: the two Mongo collections (in insertion order),
a fresh-`_id` counter, and the set of user ids with live sessions
(the express-session store). -/
structure DB where
  users : List UserRec
  nextUid : Nat
  scans : List ScanRec
  sessions : List Nat
deriving Repr, DecidableEq

/-- Model of `bcrypt.hash(pw, 10)`: an injective tagging of the password.
The real primitive is salted and one-way; all the server relies on is that
`bcrypt.compare` accepts exactly the matching password, which this model
provides deterministically. -/
def bcryptHash (pw : String) : String := "bcrypt$" ++ pw

/-- Model of `bcrypt.compare(pw, hash)`. -/
def bcryptCompare (pw hash : String) : Bool := hash == bcryptHash pw

/-- `req.user.name || req.user.email.split("@")[0]` (JS `||` treats the
empty string as falsy). -/
def usernameOf (u : UserRec) : String :=
  let nm := u.name.getD ""
  if nm = "" then ((u.email.getD "").splitOn "@").headD "" else nm

/-- Response shape of `POST /api/signup`. -/
structure SignupResponse where
  status : Nat
  message : String
deriving Repr, DecidableEq

/-- `POST /api/signup` handler (`server.js` lines 93-107): `findOne` by
email; 409 on a hit, otherwise hash the password, append the new user and
answer 201.  No session is established (`req.login` is never called). -/
def signup (db : DB) (email pw : String) (name : Option String) :
    SignupResponse × DB :=
  match db.users.find? (fun u => u.email == some email) with
  | some _ => ({ status := 409, message := "Email already exists" }, db)
  | none =>
      let nu : UserRec :=
        { uid := db.nextUid, email := some email,
          password := some (bcryptHash pw), googleId := none, name := name }
      ({ status := 201, message := "Signup success" },
       { db with users := db.users ++ [nu], nextUid := db.nextUid + 1 })

/-- Outcome of the passport `LocalStrategy` verify callback
(`done(null, user)` vs `done(null, false, message)`). -/
inductive LocalAuth where
  | ok : UserRec → LocalAuth
  | failMsg : String → LocalAuth
deriving Repr, DecidableEq

/-- The `LocalStrategy` verify callback (passport module lines 333-355):
`findOne` by email, reject unknown email; reject when `user.password` is
falsy (third-party-only account); otherwise `bcrypt.compare`.  The three
rejections carry three different internal messages. -/
def localStrategy (db : DB) (email pw : String) : LocalAuth :=
  match db.users.find? (fun u => u.email == some email) with
  | none => .failMsg "Incorrect email"
  | some u =>
      let stored := u.password.getD ""
      if stored = "" then .failMsg "Please log in with Google"
      else if bcryptCompare pw stored then .ok u
      else .failMsg "Incorrect password"

/-- What the HTTP caller of `POST /api/login` observes.  With
`passport.authenticate("local")` and no custom callback, every
`done(null, false, info)` produces the same bare `401 Unauthorized`
response: the `info.message` is discarded by passport's default failure
handling, so the response does not depend on it. -/
inductive LoginHttpResp where
  | success : String → LoginHttpResp
  | unauthorized : LoginHttpResp
deriving Repr, DecidableEq

/-- `POST /api/login` (`server.js` lines 109-114) composed with the local
strategy: success responds 200 with the username; any strategy failure is
turned into the single `401 Unauthorized` response by passport. -/
def loginHttp (db : DB) (email pw : String) : LoginHttpResp :=
  match localStrategy db email pw with
  | .ok u => .success (usernameOf u)
  | .failMsg _ => .unauthorized

/-- The fields of the Google OAuth profile the `GoogleStrategy` verify
callback reads: `profile.id`, `profile.emails?.[0]?.value` (optional) and
`profile.displayName`. -/
structure GProfile where
  gid : String
  email : Option String
  displayName : Option String
deriving Repr, DecidableEq

/-- The record stored when `GoogleStrategy` links a Google id to an
existing user: `existingEmailUser.googleId = profile.id` followed by
`save()`, which persists the mutated document under its `_id`. -/
def linkGoogle (gid : String) (u0 : UserRec) : UserRec :=
  { u0 with googleId := some gid }

/-- The `GoogleStrategy` verify callback (passport module lines 360-397),
the spec's `loginExternal`: `findOne` by `googleId` and return on a hit;
otherwise, when the profile carries an email, `findOne` by email, link the
Google id to that user and return it; otherwise create a new user with
`googleId`, `name`, `email`.  Returns the authenticated user and the
updated state. -/
def loginExternal (db : DB) (p : GProfile) : UserRec × DB :=
  match db.users.find? (fun u => u.googleId == some p.gid) with
  | some u => (u, db)
  | none =>
      match p.email.bind
          (fun e => db.users.find? (fun u => u.email == some e)) with
      | some u0 =>
          let u1 := linkGoogle p.gid u0
          (u1, { db with
                  users := db.users.map
                    (fun v => if v.uid == u0.uid then u1 else v) })
      | none =>
          let nu : UserRec :=
            { uid := db.nextUid, email := p.email, password := none,
              googleId := some p.gid, name := p.displayName }
          (nu, { db with users := db.users ++ [nu],
                         nextUid := db.nextUid + 1 })

/-- Outcome of one `axios.post(FLASK_URL/predict, ...)` attempt: either a
response whose data carries `prediction` and `confidence`, or a thrown
error with a message (network failure, timeout, or HTTP error status). -/
inductive AttemptResult where
  | ok : String → Nat → AttemptResult
  | err : String → AttemptResult
deriving Repr, DecidableEq

/-- The `for (attempt = 1; attempt <= maxAttempts; attempt++)` loop inside
`callFlaskPredict` (`server.js` lines 153-172), with the predictor modelled
as an oracle from the attempt number to that attempt's outcome.  Returns
the final result (`Except.error` models the rethrown last error), the
number of attempts made, and the list of backoff sleeps taken
(`250 * attempt` milliseconds before each retry).  `remaining` counts the
attempts still allowed including the current one; the `remaining = 0` base
case is unreachable for `maxAttempts ≥ 1`. -/
def attemptLoop (oracle : Nat → AttemptResult) :
    Nat → Nat → Except String (String × Nat) × Nat × List Nat
  | _, 0 => (.error "Unknown scan error", 0, [])
  | attempt, remaining + 1 =>
      match oracle attempt with
      | .ok p c => (.ok (p, c), 1, [])
      | .err e =>
          if remaining = 0 then (.error e, 1, [])
          else
            let (r, n, bs) := attemptLoop oracle (attempt + 1) remaining
            (r, n + 1, 250 * attempt :: bs)

/-- `callFlaskPredict` with its hard-coded `maxAttempts = 2`, starting at
attempt 1. -/
def callFlaskPredict (oracle : Nat → AttemptResult) :
    Except String (String × Nat) × Nat × List Nat :=
  attemptLoop oracle 1 2

/-- `(error && (error.message || ...)) || "Unknown scan error"`: the error
message surfaced by the catch block, with the JS falsy-empty-string
fallback. -/
def errMsgOf (e : String) : String :=
  if e = "" then "Unknown scan error" else e

/-- JSON response of `POST /api/scan-url`, with `none` for absent keys. -/
structure ScanResponse where
  status : Nat
  message : String
  errCode : Option String
  url : Option String
  prediction : Option String
  confidence : Option Nat
  timestamp : Option Nat
deriving Repr, DecidableEq

/-- 400 response for a missing (or empty, JS-falsy) `url`. -/
def badRequestResp : ScanResponse :=
  { status := 400, message := "URL is required", errCode := none,
    url := none, prediction := none, confidence := none, timestamp := none }

/-- 503 response when `FLASK_URL` is unset (`server.js` lines 143-148). -/
def notConfiguredResp : ScanResponse :=
  { status := 503, message := "AI service is not configured.",
    errCode := some "FLASK_SERVICE_NOT_CONFIGURED",
    url := none, prediction := none, confidence := none, timestamp := none }

/-- 500 response produced by the handler's catch block
(`server.js` lines 206-223). -/
def scanFailedResp (e : String) : ScanResponse :=
  { status := 500, message := "Scan failed", errCode := some (errMsgOf e),
    url := none, prediction := none, confidence := none, timestamp := none }

/-- 200 response carrying the prediction (`server.js` lines 196-205). -/
def scanOkResp (u pred : String) (conf now : Nat) : ScanResponse :=
  { status := 200,
    message := if pred = "phishing" then "Potential phishing site detected!"
               else "URL appears to be legitimate.",
    errCode := none, url := some u, prediction := some pred,
    confidence := some conf, timestamp := some now }

/-- Per-request environment of the scan handler: the `FLASK_URL`
configuration, the predictor oracle, whether `newCheck.save()` succeeds
(and the error message it throws when it does not), and the clock. -/
structure ScanEnv where
  flaskUrl : Option String
  oracle : Nat → AttemptResult
  saveOk : Bool
  saveErr : String
  now : Nat

/-- `POST /api/scan-url` handler (`server.js` lines 138-224).  `auth` is
`some uid` when `req.isAuthenticated()`.  Steps, in source order inside the
single try block: reject a falsy `url` with 400; reject with 503 when
`FLASK_URL` is unset; call `callFlaskPredict`; when authenticated, build a
`UrlCheck` and `await newCheck.save()`; respond 200 with the prediction.
Any exception — from the predictor after its retries, or from `save()` —
lands in the catch block, which responds 500 `Scan failed` with the error
message. -/
def scanUrlHandler (env : ScanEnv) (auth : Option Nat) (url : Option String)
    (db : DB) : ScanResponse × DB :=
  match url with
  | none => (badRequestResp, db)
  | some u =>
      if u = "" then (badRequestResp, db)
      else
        match env.flaskUrl with
        | none => (notConfiguredResp, db)
        | some _ =>
            match (callFlaskPredict env.oracle).1 with
            | .error e => (scanFailedResp e, db)
            | .ok (pred, conf) =>
                match auth with
                | none => (scanOkResp u pred conf env.now, db)
                | some uid =>
                    if env.saveOk then
                      (scanOkResp u pred conf env.now,
                       { db with scans := db.scans ++
                           [{ url := u, prediction := pred,
                              confidence := conf, user := uid,
                              checkedAt := env.now }] })
                    else (scanFailedResp env.saveErr, db)

/-- A MongoDB field value, for modelling query filters over `UrlCheck`
documents by field name. -/
inductive FieldVal where
  | str : String → FieldVal
  | num : Nat → FieldVal
  | oid : Nat → FieldVal
deriving Repr, DecidableEq

/-- The fields a stored `UrlCheck` document actually has (the schema used
by the save at `server.js` line 185): `url`, `prediction`, `confidence`,
`user`, `checkedAt` — and nothing else.  In particular the path `userId`
is absent from every document. -/
def ScanRec.getField (r : ScanRec) : String → Option FieldVal
  | "url" => some (.str r.url)
  | "prediction" => some (.str r.prediction)
  | "confidence" => some (.num r.confidence)
  | "user" => some (.oid r.user)
  | "checkedAt" => some (.num r.checkedAt)
  | _ => none

/-- MongoDB equality match of a document against a conjunction of
`field: value` conditions: a condition on a path the document does not
have matches no (non-null) value. -/
def matchesFilter (r : ScanRec) (f : List (String × FieldVal)) : Bool :=
  f.all (fun kv => r.getField kv.1 == some kv.2)

/-- `Model.countDocuments(filter)` over the scans collection. -/
def countDocuments (scans : List ScanRec) (f : List (String × FieldVal)) :
    Nat :=
  (scans.filter (fun r => matchesFilter r f)).length

/-- Insert one record into a list sorted by `checkedAt` descending,
keeping earlier-listed records first among equal keys. -/
def insertDescByCheckedAt (r : ScanRec) : List ScanRec → List ScanRec
  | [] => [r]
  | x :: xs =>
      if r.checkedAt ≤ x.checkedAt then x :: insertDescByCheckedAt r xs
      else r :: x :: xs

/-- `.sort(\x7b checkedAt: -1 \x7d)`: stable sort, most recent first. -/
def sortByCheckedAtDesc (l : List ScanRec) : List ScanRec :=
  l.foldr insertDescByCheckedAt []

/-- JSON response of `GET /api/recent-scans`, with `none` for absent
keys. -/
structure RecentScansResponse where
  status : Nat
  scans : List ScanRec
  message : Option String
  total : Nat
  phishingFound : Option Nat
  legitimateFound : Option Nat
deriving Repr, DecidableEq

/-- `GET /api/recent-scans` handler (`server.js` lines 229-256).
Unauthenticated: `{scans: [], message, total: 0}`.  Authenticated:
`find({user: uid})` sorted by `checkedAt` descending limited to 10 for the
list, but `countDocuments({userId: uid})` and
`countDocuments({userId: uid, prediction: "phishing"})` for the totals —
note the filter path `userId`, which no stored document has. -/
def recentScansHandler (auth : Option Nat) (db : DB) : RecentScansResponse :=
  match auth with
  | none =>
      { status := 200, scans := [],
        message := some "Login to see scan history", total := 0,
        phishingFound := none, legitimateFound := none }
  | some uid =>
      let recent :=
        (sortByCheckedAtDesc (db.scans.filter (fun r => r.user == uid))).take 10
      let totalScans := countDocuments db.scans [("userId", .oid uid)]
      let phishingCount := countDocuments db.scans
        [("userId", .oid uid), ("prediction", .str "phishing")]
      { status := 200, scans := recent, message := none,
        total := totalScans, phishingFound := some phishingCount,
        legitimateFound := some (totalScans - phishingCount) }

/-- The spec's User invariant: at least one authentication path, a
password hash or an external id. -/
def hasAuthPath (u : UserRec) : Bool :=
  u.password.isSome || u.googleId.isSome

/-- Every stored user has an authentication path. -/
def usersInv (db : DB) : Prop :=
  ∀ u ∈ db.users, hasAuthPath u

instance (db : DB) : Decidable (usersInv db) := by
  unfold usersInv; infer_instance

/-! ### Concrete fixtures used by witnesses and counterexamples -/

/-- The empty database. -/
def dbEmpty : DB := { users := [], nextUid := 1, scans := [], sessions := [] }

/-- A user registered through local signup. -/
def uAlice : UserRec :=
  { uid := 1, email := some "alice@x.com",
    password := some (bcryptHash "pw1"), googleId := none,
    name := some "Alice" }

/-- A third-party-only user (no password hash). -/
def uBob : UserRec :=
  { uid := 2, email := some "bob@x.com", password := none,
    googleId := some "g-7", name := some "Bob" }

/-- A database with one local and one Google-only user. -/
def dbTwoUsers : DB :=
  { users := [uAlice, uBob], nextUid := 3, scans := [], sessions := [] }

/-- A local user about to link a Google identity. -/
def uCarol : UserRec :=
  { uid := 1, email := some "carol@x.com",
    password := some (bcryptHash "pw2"), googleId := none,
    name := some "Carol" }

/-- Database holding only `uCarol`. -/
def dbCarol : DB :=
  { users := [uCarol], nextUid := 2, scans := [], sessions := [] }

/-- A Google profile whose email matches `uCarol`. -/
def gProfCarol : GProfile :=
  { gid := "g-42", email := some "carol@x.com", displayName := some "Carol G" }

/-- Environment where the predictor answers and the scan save succeeds. -/
def envPredictOk : ScanEnv :=
  { flaskUrl := some "http://flask.local",
    oracle := fun _ => .ok "phishing" 97,
    saveOk := true, saveErr := "", now := 5 }

/-- Environment where the predictor answers but `newCheck.save()` throws. -/
def envSaveFail : ScanEnv :=
  { flaskUrl := some "http://flask.local",
    oracle := fun _ => .ok "phishing" 97,
    saveOk := false, saveErr := "db down", now := 5 }

/-- Environment with no `FLASK_URL` configured. -/
def envNoFlask : ScanEnv :=
  { flaskUrl := none, oracle := fun _ => .err "unused",
    saveOk := true, saveErr := "", now := 0 }

/-- Environment where every predictor attempt fails with a network
error. -/
def envBothFail : ScanEnv :=
  { flaskUrl := some "http://flask.local",
    oracle := fun _ => .err "ECONNREFUSED",
    saveOk := true, saveErr := "", now := 0 }

/-- A scan owned by user 1. -/
def scanA : ScanRec :=
  { url := "http://a.example", prediction := "phishing",
    confidence := 97, user := 1, checkedAt := 10 }

/-- A scan owned by user 2. -/
def scanB : ScanRec :=
  { url := "http://b.example", prediction := "phishing",
    confidence := 90, user := 2, checkedAt := 20 }

/-- Database in which user 1 owns exactly one scan and user 2 one other. -/
def dbScans : DB :=
  { users := [uAlice, uBob], nextUid := 3, scans := [scanA, scanB],
    sessions := [] }

/-! ### Helper lemmas -/

theorem bcryptHash_ne_empty (pw : String) : bcryptHash pw ≠ "" := by
  intro h
  have := congrArg String.length h
  simp [bcryptHash, String.length_append] at this
  exact absurd this.1 (by decide)

theorem loginExternal_found (db : DB) (p : GProfile) (u : UserRec)
    (h : db.users.find? (fun v => v.googleId == some p.gid) = some u) :
    loginExternal db p = (u, db) := by
  unfold loginExternal
  rw [h]

theorem loginExternal_link (db : DB) (p : GProfile) (u0 : UserRec)
    (h1 : db.users.find? (fun v => v.googleId == some p.gid) = none)
    (h2 : p.email.bind
      (fun e => db.users.find? (fun v => v.email == some e)) = some u0) :
    loginExternal db p =
      (linkGoogle p.gid u0,
       { db with users :=
          db.users.map (fun v =>
            if v.uid == u0.uid then linkGoogle p.gid u0 else v) }) := by
  unfold loginExternal
  rw [h1, h2]

theorem loginExternal_create (db : DB) (p : GProfile)
    (h1 : db.users.find? (fun v => v.googleId == some p.gid) = none)
    (h2 : p.email.bind
      (fun e => db.users.find? (fun v => v.email == some e)) = none) :
    loginExternal db p =
      ({ uid := db.nextUid, email := p.email, password := none,
         googleId := some p.gid, name := p.displayName },
       { db with
          users := db.users ++
            [{ uid := db.nextUid, email := p.email, password := none,
               googleId := some p.gid, name := p.displayName }],
          nextUid := db.nextUid + 1 }) := by
  unfold loginExternal
  rw [h1, h2]

theorem find?_map_link (l : List UserRec) (gid : String) (u0 : UserRec)
    (hnone : ∀ v ∈ l, ¬((v.googleId == some gid) = true))
    (hmem : ∃ v ∈ l, v.uid = u0.uid) :
    (l.map (fun v => if v.uid == u0.uid then linkGoogle gid u0 else v)).find?
      (fun u => u.googleId == some gid) = some (linkGoogle gid u0) := by
  induction l with
  | nil => simp at hmem
  | cons x xs ih =>
      by_cases hx : x.uid = u0.uid
      · simp only [List.map_cons, hx, beq_self_eq_true, if_pos]
        exact List.find?_cons_of_pos _ (by simp [linkGoogle])
      · have hxb : (x.uid == u0.uid) = false := by simp [hx]
        simp only [List.map_cons, hxb, Bool.false_eq_true, if_neg,
          not_false_eq_true]
        rw [List.find?_cons_of_neg
          (p := fun (u : UserRec) => u.googleId == some gid) _
          (hnone x (by simp))]
        refine ih (fun v hv => hnone v (by simp [hv])) ?_
        rcases hmem with ⟨v, hv, hvu⟩
        rcases List.mem_cons.mp hv with rfl | hv'
        · exact absurd hvu hx
        · exact ⟨v, hv', hvu⟩

/-! ### Claim theorems -/

/-- C9: a signup with a fresh email answers 201, stores a new User whose
password is the bcrypt hash of the submitted password, and establishes no
session; a second signup with the same email answers 409 Conflict and
leaves the database — in particular the first record — unaltered. -/
theorem signup_conflict_second (db : DB) (e p p' : String)
    (n n' : Option String)
    (hfresh : db.users.find? (fun u => u.email == some e) = none) :
    (signup db e p n).1.status = 201 ∧
    (signup db e p n).2.users = db.users ++
      [{ uid := db.nextUid, email := some e,
         password := some (bcryptHash p), googleId := none, name := n }] ∧
    (signup db e p n).2.sessions = db.sessions ∧
    (signup (signup db e p n).2 e p' n').1.status = 409 ∧
    (signup (signup db e p n).2 e p' n').2 = (signup db e p n).2 := by
  have hstep : signup db e p n =
      ({ status := 201, message := "Signup success" },
       { db with
          users := db.users ++
            [{ uid := db.nextUid, email := some e,
               password := some (bcryptHash p), googleId := none,
               name := n }],
          nextUid := db.nextUid + 1 }) := by
    unfold signup; rw [hfresh]
  rw [hstep]
  have hfind2 :
      (db.users ++
        [({ uid := db.nextUid, email := some e,
            password := some (bcryptHash p), googleId := none,
            name := n } : UserRec)]).find? (fun u => u.email == some e) =
      some { uid := db.nextUid, email := some e,
             password := some (bcryptHash p), googleId := none,
             name := n } := by
    rw [List.find?_append, hfresh]
    simp [List.find?]
  refine ⟨rfl, rfl, rfl, ?_, ?_⟩ <;> (unfold signup; rw [hfind2])

/-- Witness for C9 on the empty database. -/
theorem signup_conflict_second_witness :
    (signup dbEmpty "dora@x.com" "pw9" (some "Dora")).1.status = 201 ∧
    (signup (signup dbEmpty "dora@x.com" "pw9" (some "Dora")).2
      "dora@x.com" "pw0" none).1.status = 409 ∧
    (signup (signup dbEmpty "dora@x.com" "pw9" (some "Dora")).2
      "dora@x.com" "pw0" none).2 =
      (signup dbEmpty "dora@x.com" "pw9" (some "Dora")).2 :=
  ⟨(signup_conflict_second dbEmpty "dora@x.com" "pw9" "pw0" (some "Dora")
      none (by decide)).1,
   (signup_conflict_second dbEmpty "dora@x.com" "pw9" "pw0" (some "Dora")
      none (by decide)).2.2.2.1,
   (signup_conflict_second dbEmpty "dora@x.com" "pw9" "pw0" (some "Dora")
      none (by decide)).2.2.2.2⟩

/-- C4: `loginLocal` (the local strategy behind `POST /api/login`) succeeds
for a registered email with the matching password; for an unknown email,
a wrong password, or a third-party-only account without a password hash it
fails, and all three failures yield the identical `401 Unauthorized`
response — the caller cannot distinguish them. -/
theorem loginLocal_uniform_unauthorized (db : DB)
    (es ps : String) (us : UserRec)
    (hs : db.users.find? (fun u => u.email == some es) = some us)
    (hsp : us.password = some (bcryptHash ps))
    (eu pu : String)
    (hu : db.users.find? (fun u => u.email == some eu) = none)
    (ew pw2 : String) (uw : UserRec)
    (hw : db.users.find? (fun u => u.email == some ew) = some uw)
    (hwh : uw.password.getD "" ≠ "")
    (hwp : bcryptCompare pw2 (uw.password.getD "") = false)
    (eg pg : String) (ug : UserRec)
    (hg : db.users.find? (fun u => u.email == some eg) = some ug)
    (hgp : ug.password.getD "" = "") :
    loginHttp db es ps = .success (usernameOf us) ∧
    loginHttp db eu pu = .unauthorized ∧
    loginHttp db ew pw2 = .unauthorized ∧
    loginHttp db eg pg = .unauthorized := by
  refine ⟨?_, ?_, ?_, ?_⟩
  · unfold loginHttp localStrategy
    rw [hs]
    simp [hsp, bcryptCompare, bcryptHash_ne_empty ps]
  · unfold loginHttp localStrategy
    rw [hu]
  · unfold loginHttp localStrategy
    rw [hw]
    simp [hwh, hwp]
  · unfold loginHttp localStrategy
    rw [hg]
    simp [hgp]

/-- Witness for C4 on a database with a local and a Google-only user. -/
theorem loginLocal_uniform_unauthorized_witness :
    loginHttp dbTwoUsers "alice@x.com" "pw1" = .success (usernameOf uAlice) ∧
    loginHttp dbTwoUsers "carol@x.com" "zzz" = .unauthorized ∧
    loginHttp dbTwoUsers "alice@x.com" "wrong" = .unauthorized ∧
    loginHttp dbTwoUsers "bob@x.com" "pw1" = .unauthorized :=
  loginLocal_uniform_unauthorized dbTwoUsers
    "alice@x.com" "pw1" uAlice (by decide) (by decide)
    "carol@x.com" "zzz" (by decide)
    "alice@x.com" "wrong" uAlice (by decide) (by decide) (by decide)
    "bob@x.com" "pw1" uBob (by decide) (by decide)

/-- C5: `loginExternal` is idempotent — running the Google verify callback
twice with the same profile returns a user with the same internal id both
times, and the second run changes nothing (creates no duplicate User). -/
theorem loginExternal_idempotent (db : DB) (p : GProfile) :
    (loginExternal (loginExternal db p).2 p).1.uid =
      (loginExternal db p).1.uid ∧
    (loginExternal (loginExternal db p).2 p).2 = (loginExternal db p).2 := by
  cases h1 : db.users.find? (fun v => v.googleId == some p.gid) with
  | some u =>
      rw [loginExternal_found db p u h1]
      show (loginExternal db p).1.uid = u.uid ∧ (loginExternal db p).2 = db
      rw [loginExternal_found db p u h1]
      exact ⟨rfl, rfl⟩
  | none =>
      cases h2 : p.email.bind
          (fun e => db.users.find? (fun v => v.email == some e)) with
      | some u0 =>
          rw [loginExternal_link db p u0 h1 h2]
          show (loginExternal
              { db with users :=
                  db.users.map (fun v =>
                    if v.uid == u0.uid then linkGoogle p.gid u0
                    else v) } p).1.uid = (linkGoogle p.gid u0).uid ∧ _
          have hnone := List.find?_eq_none.mp h1
          have hmem : ∃ v ∈ db.users, v.uid = u0.uid := by
            rcases Option.bind_eq_some.mp h2 with ⟨e, _, hf⟩
            exact ⟨u0, List.mem_of_find?_eq_some hf, rfl⟩
          have hfind := find?_map_link db.users p.gid u0 hnone hmem
          rw [loginExternal_found _ p _ hfind]
          exact ⟨rfl, rfl⟩
      | none =>
          rw [loginExternal_create db p h1 h2]
          have hfind :
              (db.users ++
                [({ uid := db.nextUid, email := p.email, password := none,
                    googleId := some p.gid,
                    name := p.displayName } : UserRec)]).find?
                (fun v => v.googleId == some p.gid) =
              some { uid := db.nextUid, email := p.email, password := none,
                     googleId := some p.gid, name := p.displayName } := by
            rw [List.find?_append, h1]
            simp [List.find?]
          rw [loginExternal_found _ p _ hfind]
          exact ⟨rfl, rfl⟩

/-- C6: a first external login whose profile email matches an existing
local account links that account — its `googleId` becomes the provider
subject id while its internal id, email and password are unchanged — and
the linked record is stored. -/
theorem loginExternal_link_preserves (db : DB) (p : GProfile) (e : String)
    (u0 : UserRec)
    (hfirst : db.users.find? (fun v => v.googleId == some p.gid) = none)
    (hemail : p.email = some e)
    (hfind : db.users.find? (fun v => v.email == some e) = some u0) :
    (loginExternal db p).1.uid = u0.uid ∧
    (loginExternal db p).1.email = u0.email ∧
    (loginExternal db p).1.password = u0.password ∧
    (loginExternal db p).1.googleId = some p.gid ∧
    (loginExternal db p).1 ∈ (loginExternal db p).2.users := by
  have h2 : p.email.bind
      (fun e2 => db.users.find? (fun v => v.email == some e2)) = some u0 := by
    rw [hemail]
    exact hfind
  rw [loginExternal_link db p u0 hfirst h2]
  refine ⟨rfl, rfl, rfl, rfl, ?_⟩
  have hm := List.mem_map_of_mem
    (fun v => if v.uid == u0.uid then linkGoogle p.gid u0 else v)
    (List.mem_of_find?_eq_some hfind)
  simpa using hm

/-- Witness for C6: `uCarol` gets `g-42` linked, email and password
kept. -/
theorem loginExternal_link_preserves_witness :
    (loginExternal dbCarol gProfCarol).1.uid = uCarol.uid ∧
    (loginExternal dbCarol gProfCarol).1.email = uCarol.email ∧
    (loginExternal dbCarol gProfCarol).1.password = uCarol.password ∧
    (loginExternal dbCarol gProfCarol).1.googleId = some gProfCarol.gid ∧
    (loginExternal dbCarol gProfCarol).1 ∈
      (loginExternal dbCarol gProfCarol).2.users :=
  loginExternal_link_preserves dbCarol gProfCarol "carol@x.com" uCarol
    (by decide) (by decide) (by decide)

theorem scanUrlHandler_users (env : ScanEnv) (auth : Option Nat)
    (url : Option String) (db : DB) :
    (scanUrlHandler env auth url db).2.users = db.users := by
  unfold scanUrlHandler
  repeat' split
  all_goals rfl

/-- C10: every User record the system creates has at least one
authentication path (a password hash or a Google id), and each operation —
signup, external login, the scan handler — preserves this invariant over
the whole user collection. -/
theorem users_auth_path_preserved (db : DB) (hinv : usersInv db)
    (e pw : String) (n : Option String) (p : GProfile) (env : ScanEnv)
    (auth : Option Nat) (url : Option String) :
    usersInv (signup db e pw n).2 ∧
    usersInv (loginExternal db p).2 ∧
    usersInv (scanUrlHandler env auth url db).2 := by
  refine ⟨?_, ?_, ?_⟩
  · unfold signup
    cases hf : db.users.find? (fun u => u.email == some e) with
    | some u => exact hinv
    | none =>
        intro u hu
        rcases List.mem_append.mp hu with h | h
        · exact hinv u h
        · rw [List.mem_singleton.mp h]
          simp [hasAuthPath]
  · cases h1 : db.users.find? (fun v => v.googleId == some p.gid) with
    | some u =>
        rw [loginExternal_found db p u h1]
        exact hinv
    | none =>
        cases h2 : p.email.bind
            (fun e2 => db.users.find? (fun v => v.email == some e2)) with
        | some u0 =>
            rw [loginExternal_link db p u0 h1 h2]
            intro u hu
            rcases List.mem_map.mp hu with ⟨v, hv, rfl⟩
            split
            · simp [linkGoogle, hasAuthPath]
            · exact hinv v hv
        | none =>
            rw [loginExternal_create db p h1 h2]
            intro u hu
            rcases List.mem_append.mp hu with h | h
            · exact hinv u h
            · rw [List.mem_singleton.mp h]
              simp [hasAuthPath]
  · intro u hu
    rw [scanUrlHandler_users] at hu
    exact hinv u hu

/-- Witness for C10 starting from the empty database. -/
theorem users_auth_path_preserved_witness :
    usersInv (signup dbEmpty "dora@x.com" "pw9" none).2 ∧
    usersInv (loginExternal dbEmpty gProfCarol).2 ∧
    usersInv (scanUrlHandler envPredictOk (some 1)
      (some "http://a.example") dbEmpty).2 :=
  users_auth_path_preserved dbEmpty (by decide) "dora@x.com" "pw9" none
    gProfCarol envPredictOk (some 1) (some "http://a.example")

theorem callFlaskPredict_retry (oracle : Nat → AttemptResult) (e1 : String)
    (h1 : oracle 1 = .err e1) :
    (callFlaskPredict oracle).2.1 = 2 ∧
    (callFlaskPredict oracle).2.2 = [250] := by
  unfold callFlaskPredict
  cases h2 : oracle 2 <;> simp [attemptLoop, h1, h2]

theorem callFlaskPredict_both_err (oracle : Nat → AttemptResult)
    (e1 e2 : String) (h1 : oracle 1 = .err e1) (h2 : oracle 2 = .err e2) :
    (callFlaskPredict oracle).1 = .error e2 := by
  unfold callFlaskPredict
  simp [attemptLoop, h1, h2]

theorem scanUrlHandler_predict_error (env : ScanEnv) (auth : Option Nat)
    (u f e : String) (db : DB)
    (hc : env.flaskUrl = some f) (hu : u ≠ "")
    (hp : (callFlaskPredict env.oracle).1 = .error e) :
    scanUrlHandler env auth (some u) db = (scanFailedResp e, db) := by
  unfold scanUrlHandler
  rw [hc]
  simp [hu, hp]

/-- C7: with no predictor endpoint configured, a (url-carrying) scan
submission is answered 503 with the distinct code
`FLASK_SERVICE_NOT_CONFIGURED` (the spec's `PredictorNotConfigured`),
distinguishable from the 500 `Scan failed` response used for predictor
failures, and no ScanRecord is created (the state is unchanged). -/
theorem scan_unconfigured_503 (env : ScanEnv) (auth : Option Nat)
    (u : String) (db : DB)
    (hcfg : env.flaskUrl = none) (hurl : u ≠ "") :
    scanUrlHandler env auth (some u) db = (notConfiguredResp, db) ∧
    notConfiguredResp.status = 503 ∧
    notConfiguredResp.errCode = some "FLASK_SERVICE_NOT_CONFIGURED" ∧
    ∀ e : String, notConfiguredResp ≠ scanFailedResp e := by
  refine ⟨?_, rfl, rfl, ?_⟩
  · unfold scanUrlHandler
    rw [hcfg]
    simp [hurl]
  · intro e h
    have hst := congrArg ScanResponse.status h
    simp [notConfiguredResp, scanFailedResp] at hst

/-- Witness for C7. -/
theorem scan_unconfigured_503_witness :
    scanUrlHandler envNoFlask (some 1) (some "http://a.example") dbEmpty =
      (notConfiguredResp, dbEmpty) ∧
    notConfiguredResp.status = 503 ∧
    notConfiguredResp.errCode = some "FLASK_SERVICE_NOT_CONFIGURED" :=
  ⟨(scan_unconfigured_503 envNoFlask (some 1) "http://a.example" dbEmpty
      rfl (by decide)).1,
   (scan_unconfigured_503 envNoFlask (some 1) "http://a.example" dbEmpty
      rfl (by decide)).2.1,
   (scan_unconfigured_503 envNoFlask (some 1) "http://a.example" dbEmpty
      rfl (by decide)).2.2.1⟩

/-- C8: when the first predictor attempt fails, exactly one retry is made
(two attempts in all) after a single fixed 250 ms backoff; when both
attempts fail the call fails with the last underlying error and the scan
handler maps it to HTTP 500 with the underlying cause in the `error`
field of the response. -/
theorem predictor_retry_and_unavailable (env : ScanEnv) (e1 : String)
    (h1 : env.oracle 1 = .err e1) :
    (callFlaskPredict env.oracle).2.1 = 2 ∧
    (callFlaskPredict env.oracle).2.2 = [250] ∧
    ∀ e2, env.oracle 2 = .err e2 → e2 ≠ "" →
      (callFlaskPredict env.oracle).1 = .error e2 ∧
      (scanFailedResp e2).status = 500 ∧
      (scanFailedResp e2).errCode = some e2 ∧
      ∀ auth u db f, env.flaskUrl = some f → u ≠ "" →
        scanUrlHandler env auth (some u) db = (scanFailedResp e2, db) := by
  refine ⟨(callFlaskPredict_retry env.oracle e1 h1).1,
    (callFlaskPredict_retry env.oracle e1 h1).2, ?_⟩
  intro e2 h2 he2
  have herr := callFlaskPredict_both_err env.oracle e1 e2 h1 h2
  refine ⟨herr, rfl, ?_, ?_⟩
  · simp [scanFailedResp, errMsgOf, he2]
  · intro auth u db f hc hu
    exact scanUrlHandler_predict_error env auth u f e2 db hc hu herr

/-- Witness for C8 with both attempts refused. -/
theorem predictor_retry_and_unavailable_witness :
    (callFlaskPredict envBothFail.oracle).2.1 = 2 ∧
    (callFlaskPredict envBothFail.oracle).2.2 = [250] ∧
    scanUrlHandler envBothFail none (some "http://a.example") dbEmpty =
      (scanFailedResp "ECONNREFUSED", dbEmpty) := by
  have h := predictor_retry_and_unavailable envBothFail "ECONNREFUSED" rfl
  exact ⟨h.1, h.2.1,
    (h.2.2 "ECONNREFUSED" rfl (by decide)).2.2.2 none "http://a.example"
      dbEmpty "http://flask.local" rfl (by decide)⟩

/-- C1 counterexample: an authenticated scan where the predictor answers
`phishing` but `newCheck.save()` throws is answered 500 `Scan failed`,
with no prediction in the payload and the persistence error surfaced in
the `error` field — not the claimed 200 response with the prediction.
The `await newCheck.save()` sits inside the handler's try block, before
`res.json`, so its exception reaches the catch block. -/
theorem scan_save_failure_surfaced :
    (scanUrlHandler envSaveFail (some 1) (some "http://evil.example")
      dbEmpty).1.status = 500 ∧
    (scanUrlHandler envSaveFail (some 1) (some "http://evil.example")
      dbEmpty).1.status ≠ 200 ∧
    (scanUrlHandler envSaveFail (some 1) (some "http://evil.example")
      dbEmpty).1.prediction = none ∧
    (scanUrlHandler envSaveFail (some 1) (some "http://evil.example")
      dbEmpty).1.errCode = some "db down" := by
  decide

/-- C1 (amended): when the predictor returns a prediction for an
authenticated scan but the ScanRecord save fails, the handler responds
500 `Scan failed` carrying the persistence error; no scan response with
the prediction is sent, and no ScanRecord is stored. -/
theorem scan_save_failure_500 (env : ScanEnv) (uid : Nat)
    (u f pred : String) (conf : Nat) (db : DB)
    (hc : env.flaskUrl = some f) (hu : u ≠ "")
    (hp : (callFlaskPredict env.oracle).1 = .ok (pred, conf))
    (hs : env.saveOk = false) :
    scanUrlHandler env (some uid) (some u) db =
      (scanFailedResp env.saveErr, db) ∧
    (scanFailedResp env.saveErr).status = 500 ∧
    (env.saveErr ≠ "" →
      (scanFailedResp env.saveErr).errCode = some env.saveErr) := by
  refine ⟨?_, rfl, ?_⟩
  · unfold scanUrlHandler
    rw [hc]
    simp [hu, hp, hs]
  · intro he
    simp [scanFailedResp, errMsgOf, he]

/-- Witness for the amended C1. -/
theorem scan_save_failure_500_witness :
    scanUrlHandler envSaveFail (some 1) (some "http://evil.example")
      dbEmpty = (scanFailedResp "db down", dbEmpty) :=
  (scan_save_failure_500 envSaveFail 1 "http://evil.example"
    "http://flask.local" "phishing" 97 dbEmpty rfl (by decide) rfl rfl).1

/-- C2 counterexample: an unauthenticated `POST /api/scan-url` with a url
and a configured predictor is fully processed — the handler answers 200
with the prediction, neither a rejection nor a redirect.  The handler
never checks `req.isAuthenticated()` before calling the predictor. -/
theorem scan_unauthenticated_processed :
    (scanUrlHandler envPredictOk none (some "http://evil.example")
      dbEmpty).1.status = 200 ∧
    (scanUrlHandler envPredictOk none (some "http://evil.example")
      dbEmpty).1.prediction = some "phishing" ∧
    (scanUrlHandler envPredictOk none (some "http://evil.example")
      dbEmpty).2 = dbEmpty := by
  decide

/-- C2 (amended): `POST /api/scan-url` is not auth-gated: an
unauthenticated request with a url and a configured, responding predictor
is processed and receives the 200 prediction payload; only persistence is
skipped (the state is unchanged — no ScanRecord is created). -/
theorem scan_unauthenticated_served (env : ScanEnv) (u f pred : String)
    (conf : Nat) (db : DB)
    (hc : env.flaskUrl = some f) (hu : u ≠ "")
    (hp : (callFlaskPredict env.oracle).1 = .ok (pred, conf)) :
    scanUrlHandler env none (some u) db =
      (scanOkResp u pred conf env.now, db) ∧
    (scanOkResp u pred conf env.now).status = 200 ∧
    (scanOkResp u pred conf env.now).prediction = some pred := by
  refine ⟨?_, rfl, rfl⟩
  unfold scanUrlHandler
  rw [hc]
  simp [hu, hp]

/-- Witness for the amended C2. -/
theorem scan_unauthenticated_served_witness :
    scanUrlHandler envPredictOk none (some "http://evil.example") dbEmpty =
      (scanOkResp "http://evil.example" "phishing" 97 envPredictOk.now,
       dbEmpty) :=
  (scan_unauthenticated_served envPredictOk "http://evil.example"
    "http://flask.local" "phishing" 97 dbEmpty rfl (by decide) rfl).1

/-- C3: in a state where the caller (user 1) owns exactly one ScanRecord
(a phishing hit) and another user owns one more, `recent-scans` returns
the caller's record in the list but reports `total = 0`,
`phishingFound = 0` and `legitimateFound = 0` — not the claimed
`total = 1`, `phishingFound = 1`.  The handler counts with
`countDocuments with a userId filter` while the documents store the owner
under `user`, so the count filters never match any document. -/
theorem recent_scans_counts_wrong :
    (recentScansHandler (some 1) dbScans).scans = [scanA] ∧
    (dbScans.scans.filter (fun r => r.user == 1)).length = 1 ∧
    (recentScansHandler (some 1) dbScans).total = 0 ∧
    (recentScansHandler (some 1) dbScans).phishingFound = some 0 ∧
    (recentScansHandler (some 1) dbScans).legitimateFound = some 0 := by
  decide

end PhishGuard
